import Mathlib

/-!
Shallow embedding of the Internal Ticket Triage Agent core
(`services/classifier.py`, `services/router.py`, `utils/logger.py`,
`models/ticket.py`) together with theorems checking the natural-language
specification against it.

Conventions used throughout the embedding:
* Python `float` values that the spec treats as exact decimals
  (confidence scores) are modelled as rationals.
* Wall-clock readings (`time.time()`) are passed in explicitly as natural
  numbers (seconds) or, for measured durations, as a `procMs : Nat`
  parameter.
* Python exceptions are modelled with `Except`: a function body that can
  raise is an `Except`-valued pipeline, and the surrounding
  `try/except` handler is an explicit `match` on that pipeline.
* Python `dict` objects used as mutable maps are modelled as association
  lists where an update prepends, so the most recent binding wins.
* `hash(content)` used for the cache key is modelled by the content
  string itself (an injective fingerprint of the same normalized text).
-/

namespace Triage

/-- `models/ticket.py`: `TicketPriority` enum. -/
inductive TicketPriority where
  | low
  | medium
  | high
  | critical
deriving DecidableEq, Repr

/-- `models/ticket.py`: `DepartmentType` enum (declaration order IT, HR,
FINANCE, FACILITIES, LEGAL, SECURITY, GENERAL). -/
inductive DepartmentType where
  | IT
  | HR
  | FINANCE
  | FACILITIES
  | LEGAL
  | SECURITY
  | GENERAL
deriving DecidableEq, Repr

/-- The `.value` string of a `DepartmentType` member. -/
def DepartmentType.value : DepartmentType → String
  | .IT => "IT"
  | .HR => "HR"
  | .FINANCE => "FINANCE"
  | .FACILITIES => "FACILITIES"
  | .LEGAL => "LEGAL"
  | .SECURITY => "SECURITY"
  | .GENERAL => "GENERAL"

/-- `DepartmentType(s)` construction from a string: succeeds exactly on the
seven enum values (`ValueError` otherwise, modelled as `none`). -/
def DepartmentType.ofValue (s : String) : Option DepartmentType :=
  if s = "IT" then some .IT
  else if s = "HR" then some .HR
  else if s = "FINANCE" then some .FINANCE
  else if s = "FACILITIES" then some .FACILITIES
  else if s = "LEGAL" then some .LEGAL
  else if s = "SECURITY" then some .SECURITY
  else if s = "GENERAL" then some .GENERAL
  else none

/-- The `.value` string of a `TicketPriority` member. -/
def TicketPriority.value : TicketPriority → String
  | .low => "low"
  | .medium => "medium"
  | .high => "high"
  | .critical => "critical"

/-- JSON values as produced by `json.loads`. -/
inductive JVal where
  | jnull
  | jbool (b : Bool)
  | jnum (q : ℚ)
  | jstr (s : String)
  | jarr (xs : List JVal)
  | jobj (fields : List (String × JVal))

/-- Occurrence of `needle` as a contiguous sublist at any position. -/
def listContainsSub (needle : List Char) : List Char → Bool
  | [] => needle.isEmpty
  | c :: rest => needle.isPrefixOf (c :: rest) || listContainsSub needle rest

/-- Python substring test `needle in hay`. -/
def strContains (hay needle : String) : Bool :=
  listContainsSub needle.data hay.data

/-- Python `str.lower()` (character-wise, as for the ASCII text the code
handles). -/
def pyLower (s : String) : String :=
  ⟨s.data.map Char.toLower⟩

/-- Python `str.upper()`. -/
def pyUpper (s : String) : String :=
  ⟨s.data.map Char.toUpper⟩

/-- Python whitespace as used by `str.strip()`. -/
def isPySpace (c : Char) : Bool :=
  c == ' ' || c == '\t' || c == '\n' || c == '\r' ||
    c == Char.ofNat 11 || c == Char.ofNat 12

/-- Python `str.strip()`. -/
def pyStrip (s : String) : String :=
  ⟨((s.data.dropWhile isPySpace).reverse.dropWhile isPySpace).reverse⟩

/-- `models/ticket.py`: `IncomingTicket` (metadata map omitted fields kept). -/
structure IncomingTicket where
  title : String
  description : String
  email : String
  priority : TicketPriority
  metadata : List (String × JVal)

/-- `models/ticket.py`: `ClassificationResult`. `reasoning` is stored as the
raw JSON value the parser produced (Python performs no runtime check that it
is a string). -/
structure ClassificationResult where
  department : DepartmentType
  assigned_to : String
  confidence_score : ℚ
  reasoning : JVal
  processing_time_ms : Nat
  model_version : String

/-- `services/classifier.py` lines 64-86: `self.team_mappings`, the fixed
per-department candidate team lists. -/
def team_mappings : DepartmentType → List String
  | .IT => ["it_support_team", "network_team", "security_team", "infrastructure_team"]
  | .HR => ["hr_operations", "recruiting_team", "benefits_team", "employee_relations"]
  | .FACILITIES => ["facilities_management", "maintenance_team", "office_services"]
  | .FINANCE => ["finance_team", "accounting_team", "procurement_team"]
  | .LEGAL => ["legal_team", "compliance_team", "contracts_team"]
  | .SECURITY => ["physical_security", "infosec_team", "compliance_security"]
  | .GENERAL => ["general_support", "admin_team"]

/-- `services/classifier.py` line 266: `it_keywords`. -/
def it_keywords : List String :=
  ["vpn", "computer", "laptop", "password", "email", "network", "wifi",
   "software", "login", "system"]

/-- `services/classifier.py` line 268: `hr_keywords`. -/
def hr_keywords : List String :=
  ["benefits", "payroll", "vacation", "pto", "onboarding", "training",
   "employment", "hiring"]

/-- `services/classifier.py` line 269: `facilities_keywords`. -/
def facilities_keywords : List String :=
  ["office", "room", "building", "parking", "heating", "cooling",
   "maintenance", "cleaning"]

/-- `services/classifier.py` line 270: `security_keywords`. -/
def security_keywords : List String :=
  ["phishing", "malware", "suspicious", "breach", "access", "badge",
   "security"]

/-- `services/classifier.py` line 271: `finance_keywords`. -/
def finance_keywords : List String :=
  ["expense", "invoice", "payment", "budget", "procurement", "vendor",
   "reimbursement"]

/-- `services/classifier.py` line 272: `legal_keywords`. -/
def legal_keywords : List String :=
  ["contract", "compliance", "gdpr", "privacy", "legal", "lawsuit",
   "regulation"]

/-- `combined_text = f"{title_lower} {desc_lower}"` from
`_create_fallback_classification`. -/
def combinedText (t : IncomingTicket) : String :=
  pyLower t.title ++ " " ++ pyLower t.description

/-- `sum(1 for kw in kws if kw in combined_text)`. -/
def keywordScore (kws : List String) (text : String) : Nat :=
  (kws.filter (fun kw => strContains text kw)).length

/-- The `scores` dict of `_create_fallback_classification`, as the ordered
association list matching Python dict insertion order
(IT, HR, FACILITIES, SECURITY, FINANCE, LEGAL). -/
def departmentScores (t : IncomingTicket) : List (DepartmentType × Nat) :=
  let text := combinedText t
  [(.IT, keywordScore it_keywords text),
   (.HR, keywordScore hr_keywords text),
   (.FACILITIES, keywordScore facilities_keywords text),
   (.SECURITY, keywordScore security_keywords text),
   (.FINANCE, keywordScore finance_keywords text),
   (.LEGAL, keywordScore legal_keywords text)]

/-- Python `max(scores.keys(), key=lambda k: scores[k])` over an ordered
(key, value) list: keeps the current best unless a later value is strictly
greater, hence returns the first key attaining the maximum. -/
def pickMaxAux (best : DepartmentType × Nat) :
    List (DepartmentType × Nat) → DepartmentType × Nat
  | [] => best
  | p :: rest => pickMaxAux (if p.2 > best.2 then p else best) rest

/-- `best_department` / `best_score` of `_create_fallback_classification`. -/
def bestEntry (t : IncomingTicket) : DepartmentType × Nat :=
  pickMaxAux (.IT, keywordScore it_keywords (combinedText t))
    (departmentScores t).tail

/-- `services/classifier.py` lines 256-307:
`TicketClassifier._create_fallback_classification`. -/
def createFallbackClassification (t : IncomingTicket) : ClassificationResult :=
  let best := bestEntry t
  let best_score := best.2
  let best_department := if best_score = 0 then DepartmentType.GENERAL else best.1
  let confidence : ℚ :=
    if best_score = 0 then 3/10 else min (7/10) (4/10 + best_score * (1/10))
  let assigned_team := (team_mappings best_department).headD ""
  { department := best_department
    assigned_to := assigned_team
    confidence_score := confidence
    reasoning := .jstr ("Fallback classification based on keyword analysis. Matched " ++
      toString best_score ++ " keywords for " ++ best_department.value ++ ".")
    processing_time_ms := 0
    model_version := "fallback-keywords" }

/-! ## JSON (`json.loads`) -/

/-- JSON whitespace characters. -/
def isJsonWs (c : Char) : Bool :=
  c == ' ' || c == '\t' || c == '\n' || c == '\r'

/-- Skip JSON whitespace. -/
def skipWs (cs : List Char) : List Char :=
  cs.dropWhile isJsonWs

/-- Value of a hexadecimal digit. -/
def hexVal (c : Char) : Option Nat :=
  if '0' ≤ c ∧ c ≤ '9' then some (c.toNat - 48)
  else if 'a' ≤ c ∧ c ≤ 'f' then some (c.toNat - 87)
  else if 'A' ≤ c ∧ c ≤ 'F' then some (c.toNat - 55)
  else none

/-- Body of a JSON string after the opening quote: returns the decoded
string and the input remaining after the closing quote.  Unknown escapes and
raw control characters fail, as in strict-mode `json.loads`. -/
def parseStringBody : List Char → Option (String × List Char)
  | [] => none
  | '"' :: rest => some ("", rest)
  | '\\' :: e :: rest =>
    let simple : Option Char :=
      if e = '"' then some '"'
      else if e = '\\' then some '\\'
      else if e = '/' then some '/'
      else if e = 'b' then some (Char.ofNat 8)
      else if e = 'f' then some (Char.ofNat 12)
      else if e = 'n' then some '\n'
      else if e = 'r' then some '\r'
      else if e = 't' then some '\t'
      else none
    match simple with
    | some c =>
      match parseStringBody rest with
      | some (s, rest2) => some (⟨c :: s.data⟩, rest2)
      | none => none
    | none =>
      if e = 'u' then
        match rest with
        | h1 :: h2 :: h3 :: h4 :: rest2 =>
          match hexVal h1, hexVal h2, hexVal h3, hexVal h4 with
          | some a, some b, some c, some d =>
            let code := ((a * 16 + b) * 16 + c) * 16 + d
            match parseStringBody rest2 with
            | some (s, rest3) => some (⟨Char.ofNat code :: s.data⟩, rest3)
            | none => none
          | _, _, _, _ => none
        | _ => none
      else none
  | c :: rest =>
    if c.toNat < 32 then none
    else
      match parseStringBody rest with
      | some (s, rest2) => some (⟨c :: s.data⟩, rest2)
      | none => none

/-- Natural number denoted by a digit list. -/
def digitsToNat (ds : List Char) : Nat :=
  ds.foldl (fun a c => a * 10 + (c.toNat - 48)) 0

/-- JSON number parser (exact rational value; Python floats are modelled as
rationals).  The value is assembled as a single `mkRat mantissa scale`. -/
def parseNumber (cs : List Char) : Option (ℚ × List Char) :=
  let (neg, cs1) := match cs with
    | '-' :: rest => (true, rest)
    | _ => (false, cs)
  let intDigits := cs1.takeWhile Char.isDigit
  let cs2 := cs1.dropWhile Char.isDigit
  if intDigits.isEmpty then none
  else if intDigits.length > 1 ∧ intDigits.headD '0' = '0' then none
  else
    let (fracDigits, cs3) : List Char × List Char := match cs2 with
      | '.' :: rest => (rest.takeWhile Char.isDigit, rest.dropWhile Char.isDigit)
      | _ => ([], cs2)
    -- a '.' with no digits after it is invalid JSON
    let fracOk : Bool := match cs2 with
      | '.' :: rest => !(rest.takeWhile Char.isDigit).isEmpty
      | _ => true
    if !fracOk then none
    else
      let mantNat := digitsToNat intDigits * 10 ^ fracDigits.length +
        digitsToNat fracDigits
      let mant : Int := if neg then -(mantNat : Int) else (mantNat : Int)
      let scale := 10 ^ fracDigits.length
      match cs3 with
      | 'e' :: rest | 'E' :: rest =>
        let (eneg, rest2) : Bool × List Char := match rest with
          | '+' :: r => (false, r)
          | '-' :: r => (true, r)
          | _ => (false, rest)
        let eds := rest2.takeWhile Char.isDigit
        if eds.isEmpty then none
        else
          let e := digitsToNat eds
          let q := if eneg then mkRat mant (scale * 10 ^ e)
            else mkRat (mant * 10 ^ e) scale
          some (q, rest2.dropWhile Char.isDigit)
      | _ => some (mkRat mant scale, cs3)

mutual

/-- JSON value parser (fuel-indexed; fuel `length + 1` always suffices). -/
def parseValue : Nat → List Char → Option (JVal × List Char)
  | 0, _ => none
  | Nat.succ fuel, cs =>
    match skipWs cs with
    | [] => none
    | c :: rest =>
      if c = '{' then
        match skipWs rest with
        | '}' :: rest2 => some (.jobj [], rest2)
        | _ => parseMembers fuel rest []
      else if c = '[' then
        match skipWs rest with
        | ']' :: rest2 => some (.jarr [], rest2)
        | _ => parseItems fuel rest []
      else if c = '"' then
        match parseStringBody rest with
        | some (s, rest2) => some (.jstr s, rest2)
        | none => none
      else if c = 't' then
        match rest with
        | 'r' :: 'u' :: 'e' :: rest2 => some (.jbool true, rest2)
        | _ => none
      else if c = 'f' then
        match rest with
        | 'a' :: 'l' :: 's' :: 'e' :: rest2 => some (.jbool false, rest2)
        | _ => none
      else if c = 'n' then
        match rest with
        | 'u' :: 'l' :: 'l' :: rest2 => some (.jnull, rest2)
        | _ => none
      else if c = '-' ∨ c.isDigit then
        match parseNumber (c :: rest) with
        | some (q, rest2) => some (.jnum q, rest2)
        | none => none
      else none

/-- Members of a JSON object after the opening brace. -/
def parseMembers : Nat → List Char → List (String × JVal) →
    Option (JVal × List Char)
  | 0, _, _ => none
  | Nat.succ fuel, cs, acc =>
    match skipWs cs with
    | '"' :: rest =>
      match parseStringBody rest with
      | none => none
      | some (key, rest2) =>
        match skipWs rest2 with
        | ':' :: rest3 =>
          match parseValue fuel rest3 with
          | none => none
          | some (v, rest4) =>
            match skipWs rest4 with
            | ',' :: rest5 => parseMembers fuel rest5 (acc ++ [(key, v)])
            | '}' :: rest5 => some (.jobj (acc ++ [(key, v)]), rest5)
            | _ => none
        | _ => none
    | _ => none

/-- Items of a JSON array after the opening bracket. -/
def parseItems : Nat → List Char → List JVal → Option (JVal × List Char)
  | 0, _, _ => none
  | Nat.succ fuel, cs, acc =>
    match parseValue fuel cs with
    | none => none
    | some (v, rest) =>
      match skipWs rest with
      | ',' :: rest2 => parseItems fuel rest2 (acc ++ [v])
      | ']' :: rest2 => some (.jarr (acc ++ [v]), rest2)
      | _ => none

end

/-- `json.loads`: parse a complete JSON document; trailing non-whitespace is
an error. -/
def jsonLoads (s : String) : Option JVal :=
  match parseValue (s.length + 1) s.data with
  | some (v, rest) => if (skipWs rest).isEmpty then some v else none
  | none => none

/-- Python dict lookup on the member list produced by `json.loads`
(a duplicated key keeps its last occurrence). -/
def objGet (fields : List (String × JVal)) (k : String) : Option JVal :=
  (fields.reverse.find? (fun p => p.1 == k)).map (fun p => p.2)

/-- Python `float(x)` on a JSON value: numbers pass through, booleans
coerce to 0/1, numeric strings parse, everything else raises (`none`). -/
def pyFloat : JVal → Option ℚ
  | .jnum q => some q
  | .jbool b => some (if b then 1 else 0)
  | .jstr s =>
    match parseNumber (pyStrip s).data with
    | some (q, rest) => if rest.isEmpty then some q else none
    | none => none
  | _ => none

/-! ## `_parse_classification_response` -/

/-- The validated parse output of `_parse_classification_response`:
the dict it returns always holds a `DepartmentType`, a team string from the
department's candidate list, a confidence in `[0, 1]`, and the raw
`reasoning` JSON value. -/
structure ParsedClassification where
  department : DepartmentType
  team : String
  confidence : ℚ
  reasoning : JVal

/-- `services/classifier.py` lines 216-247: field-presence and value
validation applied to the JSON object found in the response. -/
def validateClassificationObject : JVal → Option ParsedClassification
  | .jobj fields =>
    if (objGet fields "department").isSome ∧ (objGet fields "team").isSome ∧
        (objGet fields "confidence").isSome ∧ (objGet fields "reasoning").isSome then
      let dept := match objGet fields "department" with
        | some (.jstr s) => (DepartmentType.ofValue s).getD .GENERAL
        | _ => .GENERAL
      match pyFloat ((objGet fields "confidence").getD .jnull) with
      | none => none
      | some c0 =>
        let conf := if c0 < 0 ∨ 1 < c0 then max 0 (min 1 c0) else c0
        let teams := team_mappings dept
        let team := match objGet fields "team" with
          | some (.jstr s) => if s ∈ teams then s else teams.headD ""
          | _ => teams.headD ""
        some ⟨dept, team, conf, (objGet fields "reasoning").getD .jnull⟩
    else none
  | _ => none

/-- Index of the last occurrence of `c` (Python `str.rfind`). -/
def lastIdxOf (cs : List Char) (c : Char) : Option Nat :=
  match cs.reverse.findIdx? (fun x => x == c) with
  | some i => some (cs.length - 1 - i)
  | none => none

/-- `services/classifier.py` lines 203-213: strip the response, then slice
from the first `start` brace through the last closing brace
(`find` / `rfind`); `none` when either brace is absent. -/
def codeExtractJson (responseText : String) : Option String :=
  let cs := (pyStrip responseText).data
  match cs.findIdx? (fun x => x == '{') with
  | none => none
  | some start =>
    match lastIdxOf cs '}' with
    | none => none
    | some lastIdx => some ⟨(cs.drop start).take (lastIdx + 1 - start)⟩

/-- `services/classifier.py` lines 195-254:
`TicketClassifier._parse_classification_response` (logging elided). -/
def parseClassificationResponse (responseText : String) :
    Option ParsedClassification :=
  match codeExtractJson responseText with
  | none => none
  | some jsonContent =>
    match jsonLoads jsonContent with
    | none => none
    | some v => validateClassificationObject v

/-- Brace-balance scan from an opening brace: the shortest prefix in which
the braces balance. -/
def scanBalanced : List Char → Nat → List Char → Option (List Char)
  | [], _, _ => none
  | c :: rest, depth, acc =>
    if c = '{' then scanBalanced rest (depth + 1) (acc ++ [c])
    else if c = '}' then
      if depth = 1 then some (acc ++ [c])
      else scanBalanced rest (depth - 1) (acc ++ [c])
    else scanBalanced rest depth (acc ++ [c])

/-- Extraction as the spec words it: the first balanced `\x7b...\x7d`
substring of the (stripped) response. -/
def specExtractFirstBalanced (responseText : String) : Option String :=
  let cs := (pyStrip responseText).data
  match cs.findIdx? (fun x => x == '{') with
  | none => none
  | some i => (scanBalanced (cs.drop i) 0 []).map (fun l => ⟨l⟩)

/-- The parser as the spec describes it (first balanced object instead of the
first-brace-to-last-brace slice); used only to compare against
`parseClassificationResponse`. -/
def specParseClassificationResponse (responseText : String) :
    Option ParsedClassification :=
  match specExtractFirstBalanced responseText with
  | none => none
  | some jsonContent =>
    match jsonLoads jsonContent with
    | none => none
    | some v => validateClassificationObject v

/-! ## Router data model (`models/ticket.py`, `services/router.py`) -/

/-- `models/ticket.py`: `TicketStatus` enum. -/
inductive TicketStatus where
  | received
  | classified
  | routed
  | failed
deriving DecidableEq, Repr

/-- `models/ticket.py`: `ProcessedTicket` (`created_at` as unix seconds). -/
structure ProcessedTicket where
  title : String
  description : String
  email : String
  priority : TicketPriority
  metadata : List (String × JVal)
  ticket_id : String
  created_at : Option Nat
  status : TicketStatus
  department : Option DepartmentType
  assigned_to : Option String
  confidence_score : Option ℚ
  classification_reasoning : Option String
  routed_to_system : Option String
  external_ticket_id : Option String
  routing_error : Option String

/-- `models/ticket.py`: `TeamMapping` (timestamps elided). -/
structure TeamMapping where
  id : Option Nat
  department : DepartmentType
  team_name : String
  api_endpoint : String
  api_method : String
  api_headers : List (String × String)
  priority_threshold : TicketPriority
  is_active : Bool

/-- `models/ticket.py`: `RoutingResult`; `response_data` defaults to the
empty JSON object. -/
structure RoutingResult where
  success : Bool
  system_name : String
  external_ticket_id : Option String
  response_data : JVal
  error_message : Option String
  http_status_code : Option Nat
  processing_time_ms : Nat

/-! ## Python dict helpers (insertion by prepending, newest binding wins) -/

/-- `d.get(k)` -/
def dictGet (l : List (String × α)) (k : String) : Option α :=
  (l.find? (fun p => p.1 == k)).map (fun p => p.2)

/-- `d.get(k, dflt)` -/
def dictGetD (l : List (String × α)) (k : String) (dflt : α) : α :=
  (dictGet l k).getD dflt

/-- `d[k] = v` -/
def dictSet (l : List (String × α)) (k : String) (v : α) : List (String × α) :=
  (k, v) :: l

/-! ## Circuit breaker (`services/router.py` lines 79-266) -/

/-- The three per-endpoint dicts of `TicketRouter.__init__`:
`circuit_breaker_state`, `failure_counts`, `last_failure_time`. -/
structure BreakerState where
  cbState : List (String × Bool)
  failureCounts : List (String × Nat)
  lastFailureTime : List (String × Nat)

/-- Fresh router state: all three dicts empty. -/
def initialBreakerState : BreakerState := ⟨[], [], []⟩

/-- `services/router.py` lines 236-253: `_is_circuit_breaker_open`.  The
check itself mutates state on the 300-second auto-reset, so it returns the
updated state alongside the answer.  `now` is `time.time()` in seconds. -/
def isCircuitBreakerOpen (st : BreakerState) (endpoint : String) (now : Nat) :
    Bool × BreakerState :=
  match dictGet st.cbState endpoint with
  | none => (false, st)
  | some flag =>
    let failureCount := dictGetD st.failureCounts endpoint 0
    if failureCount < 5 then (false, st)
    else
      let lastFailure := dictGetD st.lastFailureTime endpoint 0
      if now - lastFailure > 300 then
        (false, { st with cbState := dictSet st.cbState endpoint false,
                          failureCounts := dictSet st.failureCounts endpoint 0 })
      else (flag, st)

/-- `services/router.py` lines 255-261: `_record_failure`. -/
def recordFailure (st : BreakerState) (endpoint : String) (now : Nat) :
    BreakerState :=
  let newCount := dictGetD st.failureCounts endpoint 0 + 1
  let st1 := { st with failureCounts := dictSet st.failureCounts endpoint newCount,
                       lastFailureTime := dictSet st.lastFailureTime endpoint now }
  if newCount ≥ 5 then { st1 with cbState := dictSet st1.cbState endpoint true }
  else st1

/-- `services/router.py` lines 263-266: `_record_success`. -/
def recordSuccess (st : BreakerState) (endpoint : String) : BreakerState :=
  { st with failureCounts := dictSet st.failureCounts endpoint 0,
            cbState := dictSet st.cbState endpoint false }

/-! ## System resolver (`_get_system_from_endpoint`) -/

/-- Suffix of the input after the first occurrence of `pat`, if any. -/
def suffixAfter (pat : List Char) : List Char → Option (List Char)
  | [] => none
  | c :: rest =>
    if pat.isPrefixOf (c :: rest) then some ((c :: rest).drop pat.length)
    else suffixAfter pat rest

/-- `urlparse(url).netloc`: the authority component between `"://"` (or a
leading `"//"`) and the next `/`, `?` or `#`. -/
def netlocOf (url : String) : String :=
  match suffixAfter "://".data url.data with
  | some rest => ⟨rest.takeWhile (fun c => c ≠ '/' ∧ c ≠ '?' ∧ c ≠ '#')⟩
  | none =>
    if "//".data.isPrefixOf url.data then
      ⟨(url.data.drop 2).takeWhile (fun c => c ≠ '/' ∧ c ≠ '?' ∧ c ≠ '#')⟩
    else ""

/-- `services/router.py` lines 84-98: `_get_system_from_endpoint`. -/
def getSystemFromEndpoint (endpoint : String) : String :=
  let domain := pyLower (netlocOf endpoint)
  if strContains domain "atlassian.net" || strContains domain "jira" then "jira"
  else if strContains domain "freshservice" then "freshservice"
  else if strContains domain "slack.com" then "slack"
  else if strContains domain "webhook.site" then "webhook_test"
  else "unknown"

/-! ## Payload transformers (`services/router.py` lines 100-234) -/

/-- The Jira `priority_mapping` dict (`.get` default `"Medium"` is
unreachable: every enum member is a key). -/
def jiraPriorityName : TicketPriority → String
  | .low => "Low"
  | .medium => "Medium"
  | .high => "High"
  | .critical => "Highest"

/-- The Freshservice `priority_mapping` dict (`.get` default `2`
unreachable). -/
def freshservicePriority : TicketPriority → Nat
  | .low => 1
  | .medium => 2
  | .high => 3
  | .critical => 4

/-- The Slack `color_mapping` dict. -/
def slackColor : TicketPriority → String
  | .low => "#36a64f"
  | .medium => "#ff9500"
  | .high => "#ff0000"
  | .critical => "#800080"

/-- Python `int(q)`: truncation toward zero. -/
def pyInt (q : ℚ) : Int :=
  if 0 ≤ q then ⌊q⌋ else ⌈q⌉

/-- The Jira wire payload of `_transform_ticket_for_jira`, flattened
(field names follow the nested dict literally). -/
structure JiraPayload where
  projectKey : String
  summary : String
  descriptionText : String
  issuetypeName : String
  priorityName : String
  reporterEmail : String
  labels : List String
  customAssignedTeam : Option String

/-- `services/router.py` lines 100-138: `_transform_ticket_for_jira`.
`if ticket.confidence_score` is Python truthiness, so a 0.0 confidence also
yields `"confidence:unknown"`. -/
def transformTicketForJira (t : ProcessedTicket) : JiraPayload :=
  { projectKey := "SUPP"
    summary := t.title
    descriptionText := t.description
    issuetypeName := "Task"
    priorityName := jiraPriorityName t.priority
    reporterEmail := t.email
    labels :=
      [(match t.department with
        | some d => "department:" ++ pyLower d.value
        | none => "department:general"),
       "auto-routed",
       (match t.confidence_score with
        | some q =>
          if q = 0 then "confidence:unknown"
          else "confidence:" ++ toString (pyInt (q * 100))
        | none => "confidence:unknown")]
    customAssignedTeam := t.assigned_to }

/-- The Freshservice wire payload of `_transform_ticket_for_freshservice`,
flattened. -/
structure FreshservicePayload where
  subject : String
  descriptionText : String
  email : String
  priority : Nat
  status : Nat
  source : Nat
  tagDepartment : String
  tagAutoRouted : String
  tagTeam : Option String
  customAssignedTeam : Option String
  customAiConfidence : ℚ
  customClassificationReasoning : String

/-- `services/router.py` lines 140-168: `_transform_ticket_for_freshservice`.
`confidence_score if confidence_score else 0.0` is truthiness again. -/
def transformTicketForFreshservice (t : ProcessedTicket) : FreshservicePayload :=
  { subject := t.title
    descriptionText := t.description
    email := t.email
    priority := freshservicePriority t.priority
    status := 2
    source := 2
    tagDepartment :=
      (match t.department with
       | some d => "department:" ++ pyLower d.value
       | none => "department:general")
    tagAutoRouted := "auto-routed"
    tagTeam := t.assigned_to
    customAssignedTeam := t.assigned_to
    customAiConfidence :=
      (match t.confidence_score with
       | some q => if q = 0 then 0 else q
       | none => 0)
    customClassificationReasoning := t.classification_reasoning.getD "" }

/-- The Slack wire payload of `_transform_ticket_for_slack`, flattened. -/
structure SlackPayload where
  text : String
  color : String
  fieldTitle : String
  fieldDescription : String
  fieldReporter : String
  fieldPriority : String
  fieldDepartment : String
  fieldAssignedTo : String
  footer : String
  ts : Nat

/-- `services/router.py` lines 170-221: `_transform_ticket_for_slack`.
`now` stands for the `int(time.time())` fallback timestamp. -/
def transformTicketForSlack (t : ProcessedTicket) (now : Nat) : SlackPayload :=
  { text := "New Ticket: " ++ t.title
    color := slackColor t.priority
    fieldTitle := t.title
    fieldDescription :=
      if t.description.length > 300 then (⟨t.description.data.take 300⟩ : String) ++ "..."
      else t.description
    fieldReporter := t.email
    fieldPriority := pyUpper t.priority.value
    fieldDepartment :=
      (match t.department with
       | some d => d.value
       | none => "GENERAL")
    fieldAssignedTo :=
      (match t.assigned_to with
       | some s => if s = "" then "Unassigned" else s
       | none => "Unassigned")
    footer := "Ticket ID: " ++ t.ticket_id
    ts := t.created_at.getD now }

/-- Dispatch result of `_transform_ticket_payload`. -/
inductive Payload where
  | jira (p : JiraPayload)
  | freshservice (p : FreshservicePayload)
  | slack (p : SlackPayload)
  | generic (t : ProcessedTicket)

/-- `services/router.py` lines 223-234: `_transform_ticket_payload`
(`webhook_test`, `unknown` and any other name fall through to the generic
`to_dict` serialization). -/
def transformTicketPayload (t : ProcessedTicket) (system : String) (now : Nat) :
    Payload :=
  if system = "jira" then .jira (transformTicketForJira t)
  else if system = "freshservice" then .freshservice (transformTicketForFreshservice t)
  else if system = "slack" then .slack (transformTicketForSlack t now)
  else .generic t

/-! ## External ticket id extraction (`_extract_ticket_id`) -/

/-- Python truthiness of a JSON value. -/
def jvalTruthy : JVal → Bool
  | .jnull => false
  | .jbool b => b
  | .jnum q => decide (q ≠ 0)
  | .jstr s => decide (s ≠ "")
  | .jarr xs => !xs.isEmpty
  | .jobj fs => !fs.isEmpty

/-- Python `a or b` over optional JSON values (`dict.get` yields `None` for
a missing key). -/
def pyTruthyOr (a b : Option JVal) : Option JVal :=
  match a with
  | some v => if jvalTruthy v then some v else b
  | none => b

/-- Python `str(x)` on a JSON value.  String/number/bool/None renderings are
faithful for the identifier-shaped values the code extracts; containers are
represented by placeholders (their exact `repr` text is never inspected). -/
def pyStr : JVal → String
  | .jstr s => s
  | .jnum q => if q.den = 1 then toString q.num else toString q.num ++ "/" ++ toString q.den
  | .jbool b => if b then "True" else "False"
  | .jnull => "None"
  | .jarr _ => "<list>"
  | .jobj _ => "<dict>"

/-- First of `keys` present in the dict, returning its value
(`if key in response_data: return str(response_data[key])`). -/
def firstKeyOf (fields : List (String × JVal)) : List String → Option JVal
  | [] => none
  | k :: rest =>
    match objGet fields k with
    | some v => some v
    | none => firstKeyOf fields rest

/-- The nested-object search of the generic branch: scan
`ticket`/`issue`/`data` members that are dicts for the first id-like key. -/
def nestedIdSearch (fields : List (String × JVal)) : List String → Option JVal
  | [] => none
  | nk :: rest =>
    match (objGet fields nk).getD (.jobj []) with
    | .jobj nfs =>
      match firstKeyOf nfs ["id", "ticket_id", "key", "number"] with
      | some w => some w
      | none => nestedIdSearch fields rest
    | _ => nestedIdSearch fields rest

/-- `services/router.py` lines 416-450: `_extract_ticket_id`.  The function
catches `json.JSONDecodeError` and `AttributeError` (returning `None`), but a
`TypeError` from a membership test on a non-container escapes to the caller;
that escape is the `.error` case.  `now` is the `int(time.time())` used for
the synthesized Slack identifier. -/
def extractTicketId (bodyText : String) (system : String) (now : Nat) :
    Except String (Option String) :=
  if bodyText = "" then .ok none
  else
    match jsonLoads bodyText with
    | none => .ok none
    | some respData =>
      if system = "jira" then
        match respData with
        | .jobj fs => .ok ((pyTruthyOr (objGet fs "key") (objGet fs "id")).map pyStr)
        | _ => .ok none
      else if system = "freshservice" then
        match respData with
        | .jobj fs =>
          match (objGet fs "ticket").getD (.jobj []) with
          | .jobj tfs =>
            match objGet tfs "id" with
            | some idv => .ok (if jvalTruthy idv then some (pyStr idv) else none)
            | none => .ok none
          | _ => .ok none
        | _ => .ok none
      else if system = "slack" then .ok (some ("slack_" ++ toString now))
      else
        match respData with
        | .jobj fs =>
          match firstKeyOf fs ["id", "ticket_id", "key", "number"] with
          | some v => .ok (some (pyStr v))
          | none => .ok ((nestedIdSearch fs ["ticket", "issue", "data"]).map pyStr)
        | .jarr xs =>
          if ["id", "ticket_id", "key", "number"].any
              (fun k => xs.any (fun v => match v with | .jstr s => s == k | _ => false))
          then .error "TypeError"
          else .ok none
        | .jstr s =>
          if ["id", "ticket_id", "key", "number"].any (fun k => strContains s k)
          then .error "TypeError"
          else .ok none
        | _ => .error "TypeError"

/-! ## `route_ticket` -/

/-- Outcome of the single `client.request` call inside one `route_ticket`
invocation: either a delivered HTTP response (with its status code and body
text) or a transport-level `httpx.RequestError`. -/
inductive HttpOutcome where
  | response (status : Nat) (bodyText : String)
  | transportFailure (msg : String)

/-- `services/router.py` lines 286-414: the body of
`TicketRouter.route_ticket` (one attempt, decorators aside).  Returns the
routing result, the updated breaker state, and whether the HTTP call was
issued at all (`false` exactly on the open-breaker short circuit).
`now` is the clock in seconds; `procMs` the measured latency recorded in
the result. -/
def routeTicketBody (t : ProcessedTicket) (tm : TeamMapping) (st : BreakerState)
    (outcome : HttpOutcome) (now : Nat) (procMs : Nat) :
    RoutingResult × BreakerState × Bool :=
  let checked := isCircuitBreakerOpen st tm.api_endpoint now
  if checked.1 then
    ({ success := false, system_name := "circuit_breaker", external_ticket_id := none,
       response_data := .jobj [],
       error_message := some ("Circuit breaker open for " ++ tm.api_endpoint),
       http_status_code := none, processing_time_ms := procMs }, checked.2, false)
  else
    let st0 := checked.2
    let system := getSystemFromEndpoint tm.api_endpoint
    let _payload := transformTicketPayload t system now
    match outcome with
    | .transportFailure msg =>
      ({ success := false, system_name := system, external_ticket_id := none,
         response_data := .jobj [], error_message := some ("Request error: " ++ msg),
         http_status_code := none, processing_time_ms := procMs },
       recordFailure st0 tm.api_endpoint now, true)
    | .response status bodyText =>
      if 200 ≤ status ∧ status < 300 then
        match extractTicketId bodyText system now with
        | .error e =>
          ({ success := false, system_name := system, external_ticket_id := none,
             response_data := .jobj [], error_message := some ("Unexpected error: " ++ e),
             http_status_code := none, processing_time_ms := procMs },
           recordFailure st0 tm.api_endpoint now, true)
        | .ok extId =>
          let st1 := recordSuccess st0 tm.api_endpoint
          if bodyText = "" then
            ({ success := true, system_name := system, external_ticket_id := extId,
               response_data := .jobj [], error_message := none,
               http_status_code := some status, processing_time_ms := procMs }, st1, true)
          else
            match jsonLoads bodyText with
            | some v =>
              ({ success := true, system_name := system, external_ticket_id := extId,
                 response_data := v, error_message := none,
                 http_status_code := some status, processing_time_ms := procMs }, st1, true)
            | none =>
              ({ success := false, system_name := system, external_ticket_id := none,
                 response_data := .jobj [],
                 error_message := some "Unexpected error: response body is not valid JSON",
                 http_status_code := none, processing_time_ms := procMs },
               recordFailure st1 tm.api_endpoint now, true)
      else
        ({ success := false, system_name := system, external_ticket_id := none,
           response_data := .jobj [],
           error_message := some ("HTTP error " ++ toString status ++ ": " ++ bodyText),
           http_status_code := some status, processing_time_ms := procMs },
         recordFailure st0 tm.api_endpoint now, true)

/-! ## The `retry_with_backoff` decorator (`utils/logger.py` lines 182-240) -/

/-- Tenacity semantics of `retry_with_backoff(max_attempts, ...)`: run the
wrapped callable; on a raised (matching) exception retry, consuming one
attempt per raise; after the attempt budget reraise the last exception.
`f i` is the outcome of attempt `i` (`.error` = the callable raised).
Backoff sleeping has no observable effect on the result and is elided. -/
def retryRun (f : Nat → Except ε α) : Nat → Nat → Except ε α
  | i, 0 => f i
  | i, Nat.succ n =>
    match f i with
    | .ok a => .ok a
    | .error _ => retryRun f (i + 1) n

/-- The decorator with `max_attempts` total attempts. -/
def retryWithBackoff (maxAttempts : Nat) (f : Nat → Except ε α) : Except ε α :=
  retryRun f 0 (maxAttempts - 1)

/-- `route_ticket` as decorated with
`@retry_with_backoff(max_attempts=3, exceptions=(httpx.RequestError, httpx.HTTPStatusError))`:
each attempt runs the body, which never raises (every exception is caught
inside and converted to a failure `RoutingResult`), so each attempt is an
`.ok`.  `outcomes i` is the HTTP outcome attempt `i` would see. -/
def routeTicket (t : ProcessedTicket) (tm : TeamMapping) (st : BreakerState)
    (outcomes : Nat → HttpOutcome) (now : Nat) (procMs : Nat) :
    Except String (RoutingResult × BreakerState × Bool) :=
  retryWithBackoff 3 (fun i => Except.ok (routeTicketBody t tm st (outcomes i) now procMs))

/-! ## `classify_ticket` (`services/classifier.py` lines 309-392) -/

/-- The in-memory `_classification_cache`. -/
def Cache : Type := List (String × ClassificationResult)

/-- `_generate_cache_key`: `str(hash(title.lower() + " " + desc.lower()))`,
with `hash` modelled by the (injective) content string itself. -/
def generateCacheKey (t : IncomingTicket) : String :=
  pyLower t.title ++ " " ++ pyLower t.description

/-- Cache lookup (`cache_key in self._classification_cache`). -/
def cacheLookup (cache : Cache) (k : String) : Option ClassificationResult :=
  dictGet cache k

/-- Outcome of the one `model.generate_content` call: the response text, or
a raised backend exception. -/
def BackendOutcome : Type := Except String String

/-- The `try` block of `classify_ticket`: every step that can raise is an
`Except`; `.ok` carries (result, updated cache, backend-was-called).
`elapsedMs` is the measured `int((time.time() - start_time) * 1000)`. -/
def classifyPipeline (modelName : String) (t : IncomingTicket) (cache : Cache)
    (backend : BackendOutcome) (elapsedMs : Nat) :
    Except String (ClassificationResult × Cache × Bool) :=
  let cacheKey := generateCacheKey t
  match cacheLookup cache cacheKey with
  | some cached => .ok (cached, cache, false)
  | none =>
    match backend with
    | .error e => .error e
    | .ok text =>
      if text = "" then .error "Empty response from Gemini API"
      else
        match parseClassificationResponse text with
        | none => .ok (createFallbackClassification t, cache, true)
        | some parsed =>
          let result : ClassificationResult :=
            { department := parsed.department
              assigned_to := parsed.team
              confidence_score := parsed.confidence
              reasoning := parsed.reasoning
              processing_time_ms := elapsedMs
              model_version := modelName }
          .ok (result, dictSet cache cacheKey result, true)

/-- `classify_ticket` body with its `except Exception` handler: any raise in
the pipeline is absorbed and answered with the keyword fallback whose
`processing_time_ms` is then overwritten with the measured time. -/
def classifyTicketBody (modelName : String) (t : IncomingTicket) (cache : Cache)
    (backend : BackendOutcome) (elapsedMs : Nat) :
    ClassificationResult × Cache × Bool :=
  match classifyPipeline modelName t cache backend elapsedMs with
  | .ok out => out
  | .error _ =>
    ({ createFallbackClassification t with processing_time_ms := elapsedMs },
     cache, true)

/-- `classify_ticket` as decorated with
`@retry_with_backoff(max_attempts=3, exceptions=(Exception,))`: the body
never raises, so every attempt is an `.ok`.  `backends i` is the backend
outcome attempt `i` would see. -/
def classifyTicket (modelName : String) (t : IncomingTicket) (cache : Cache)
    (backends : Nat → BackendOutcome) (elapsedMs : Nat) :
    Except String (ClassificationResult × Cache × Bool) :=
  retryWithBackoff 3
    (fun i => Except.ok (classifyTicketBody modelName t cache (backends i) elapsedMs))

/-! ## Shared example inputs used by witnesses and counterexamples -/

/-- The worked example of spec §8: title "VPN not working". -/
def exTicket : IncomingTicket :=
  { title := "VPN not working", description := "Cannot connect to VPN after update",
    email := "user@example.com", priority := .medium, metadata := [] }

/-- A well-formed backend response carrying all four required fields. -/
def goodResp : String :=
  "\x7b\"department\": \"IT\", \"team\": \"network_team\", \"confidence\": 0.9, \"reasoning\": \"r\"\x7d"

/-- `goodResp` followed by a second (empty) JSON object: the first balanced
object is well-formed, but the first-brace-to-last-brace slice is not valid
JSON. -/
def twoObjResp : String := goodResp ++ " \x7b\x7d"

/-- A concrete processed ticket with critical priority, used by witnesses. -/
def exProcessedTicket : ProcessedTicket :=
  { title := "T", description := "D", email := "user@example.com",
    priority := .critical, metadata := [], ticket_id := "id1",
    created_at := some 5, status := .received, department := some .IT,
    assigned_to := some "it_support_team", confidence_score := none,
    classification_reasoning := none, routed_to_system := none,
    external_ticket_id := none, routing_error := none }

/-- The AI-parsed result `classify_ticket` produces from `goodResp` with a
measured time of 99 ms. -/
def exAiResult : ClassificationResult :=
  { department := .IT, assigned_to := "network_team",
    confidence_score := mkRat 9 10, reasoning := .jstr "r",
    processing_time_ms := 99, model_version := "gemini-1.5-pro" }

/-- The cache after that successful classification. -/
def exAiCache : Cache := [(generateCacheKey exTicket, exAiResult)]

/-- The keyword-fallback result for `exTicket` with measured time 42 ms. -/
def exFallbackResult : ClassificationResult :=
  { createFallbackClassification exTicket with processing_time_ms := 42 }

/-- A concrete endpoint URL resolving to no known system. -/
def epEx : String := "https://api.example.com/hook"

/-- A team mapping pointing at `epEx`. -/
def exMapping : TeamMapping :=
  { id := none, department := .IT, team_name := "it_support_team",
    api_endpoint := epEx, api_method := "POST", api_headers := [],
    priority_threshold := .low, is_active := true }

/-- A team mapping pointing at a Jira endpoint. -/
def exMappingJira : TeamMapping :=
  { exMapping with
    api_endpoint := "https://your-company.atlassian.net/rest/api/2" }

/-- Breaker state after four consecutive failures against `epEx` at time
100. -/
def st4ex : BreakerState :=
  recordFailure (recordFailure (recordFailure
    (recordFailure initialBreakerState epEx 100) epEx 100) epEx 100) epEx 100

/-- Breaker state after five consecutive failures against `epEx` at time
100 (the breaker is open). -/
def st5ex : BreakerState := recordFailure st4ex epEx 100

/-! ## Argmax helper lemmas for the fallback classifier -/

theorem pickMaxAux_le (l : List (DepartmentType × Nat)) :
    ∀ best p, p ∈ best :: l → p.2 ≤ (pickMaxAux best l).2 := by
  induction l with
  | nil =>
    intro best p hp
    simp only [List.mem_singleton] at hp
    simp [hp, pickMaxAux]
  | cons q rest ih =>
    intro best p hp
    simp only [List.mem_cons] at hp
    have step : pickMaxAux best (q :: rest) =
        pickMaxAux (if q.2 > best.2 then q else best) rest := rfl
    rw [step]
    rcases hp with hb | hq | hr
    · subst hb
      have h1 : p.2 ≤ (if q.2 > p.2 then q else p).2 := by
        split <;> omega
      exact le_trans h1 (ih _ _ (List.mem_cons_self _ _))
    · subst hq
      have h1 : p.2 ≤ (if p.2 > best.2 then p else best).2 := by
        split <;> omega
      exact le_trans h1 (ih _ _ (List.mem_cons_self _ _))
    · exact ih _ _ (List.mem_cons_of_mem _ hr)

theorem pickMaxAux_find_first (l : List (DepartmentType × Nat)) :
    ∀ best, (best :: l).find? (fun p => p.2 == (pickMaxAux best l).2) =
      some (pickMaxAux best l) := by
  induction l with
  | nil =>
    intro best
    simp [pickMaxAux, List.find?]
  | cons q rest ih =>
    intro best
    have step : pickMaxAux best (q :: rest) =
        pickMaxAux (if q.2 > best.2 then q else best) rest := rfl
    rw [step]
    by_cases hq : q.2 > best.2
    · simp only [if_pos hq] at *
      have hbr : best.2 < (pickMaxAux q rest).2 :=
        lt_of_lt_of_le hq (pickMaxAux_le rest q q (List.mem_cons_self _ _))
      have hbne : (best.2 == (pickMaxAux q rest).2) = false := by
        simp [Nat.ne_of_lt hbr]
      rw [List.find?]
      rw [hbne]
      exact ih q
    · simp only [if_neg hq] at *
      have hqle : q.2 ≤ best.2 := Nat.le_of_not_lt hq
      have ihb := ih best
      by_cases hb : best.2 = (pickMaxAux best rest).2
      · have hfind : (best :: q :: rest).find?
            (fun p => p.2 == (pickMaxAux best rest).2) = some best := by
          rw [List.find?]
          simp [hb]
        have hres : pickMaxAux best rest = best := by
          rw [List.find?] at ihb
          simp only [hb, beq_self_eq_true] at ihb
          exact Option.some_injective _ ihb.symm
        rw [hfind, hres]
      · have hlt : best.2 < (pickMaxAux best rest).2 :=
          lt_of_le_of_ne (pickMaxAux_le rest best best (List.mem_cons_self _ _)) hb
        have hqlt : q.2 < (pickMaxAux best rest).2 := lt_of_le_of_lt hqle hlt
        rw [List.find?] at ihb ⊢
        have hbne : (best.2 == (pickMaxAux best rest).2) = false := by
          simp [hb]
        rw [hbne] at ihb ⊢
        rw [List.find?]
        have hqne : (q.2 == (pickMaxAux best rest).2) = false := by
          simp [Nat.ne_of_lt hqlt]
        rw [hqne]
        exact ihb

/-- The head/tail decomposition of the scores list. -/
theorem departmentScores_eq (t : IncomingTicket) :
    departmentScores t =
      (DepartmentType.IT, keywordScore it_keywords (combinedText t)) ::
        (departmentScores t).tail := rfl

theorem createFallback_department (t : IncomingTicket) :
    (createFallbackClassification t).department =
      if (bestEntry t).2 = 0 then .GENERAL else (bestEntry t).1 := rfl

theorem createFallback_confidence (t : IncomingTicket) :
    (createFallbackClassification t).confidence_score =
      if (bestEntry t).2 = 0 then 3/10
      else min ((7 : ℚ)/10) (4/10 + ((bestEntry t).2 : ℚ) * (1/10)) := rfl

theorem createFallback_assigned (t : IncomingTicket) :
    (createFallbackClassification t).assigned_to =
      (team_mappings (createFallbackClassification t).department).headD "" := rfl

theorem createFallback_model_version (t : IncomingTicket) :
    (createFallbackClassification t).model_version = "fallback-keywords" := rfl

/-- C5. For every ticket, the keyword fallback scores each department on the
lowercased title+description; the best entry attains the maximum score and is
the first entry of the fixed order IT, HR, FACILITIES, SECURITY, FINANCE,
LEGAL to attain it; a best score of 0 yields GENERAL with confidence 0.3,
otherwise the winning department with confidence min(0.7, 0.4 + 0.1·score);
the assigned team is the first candidate of the winning department; and the
confidence always lies in [0.3, 0.7]. -/
theorem c5_fallback_classifier (t : IncomingTicket) :
    ((3 : ℚ)/10 ≤ (createFallbackClassification t).confidence_score ∧
      (createFallbackClassification t).confidence_score ≤ (7 : ℚ)/10) ∧
    (createFallbackClassification t).assigned_to =
      (team_mappings (createFallbackClassification t).department).headD "" ∧
    (∀ p ∈ departmentScores t, p.2 ≤ (bestEntry t).2) ∧
    (departmentScores t).find? (fun p => p.2 == (bestEntry t).2) =
      some (bestEntry t) ∧
    ((bestEntry t).2 = 0 →
      (createFallbackClassification t).department = .GENERAL ∧
      (createFallbackClassification t).confidence_score = (3 : ℚ)/10) ∧
    ((bestEntry t).2 ≠ 0 →
      (createFallbackClassification t).department = (bestEntry t).1 ∧
      (createFallbackClassification t).confidence_score =
        min ((7 : ℚ)/10) (4/10 + ((bestEntry t).2 : ℚ) * (1/10))) := by
  refine ⟨?_, createFallback_assigned t, ?_, ?_, ?_, ?_⟩
  · rw [createFallback_confidence]
    by_cases h : (bestEntry t).2 = 0
    · rw [if_pos h]; norm_num
    · rw [if_neg h]
      constructor
      · refine le_min (by norm_num) ?_
        have h0 : (0 : ℚ) ≤ ((bestEntry t).2 : ℚ) * (1/10) := by positivity
        linarith
      · exact min_le_left _ _
  · intro p hp
    exact pickMaxAux_le _ _ p (by rw [← departmentScores_eq t]; exact hp)
  · have h := pickMaxAux_find_first (departmentScores t).tail
      (DepartmentType.IT, keywordScore it_keywords (combinedText t))
    rw [← departmentScores_eq t] at h
    exact h
  · intro h
    rw [createFallback_department, createFallback_confidence, if_pos h, if_pos h]
    exact ⟨rfl, rfl⟩
  · intro h
    rw [createFallback_department, createFallback_confidence, if_neg h, if_neg h]
    exact ⟨rfl, rfl⟩

/-- Witness for C5 on the spec §8 example ticket: one IT keyword ("vpn")
matches, so the fallback assigns IT with confidence 0.5 and the first IT
candidate team. -/
theorem c5_fallback_classifier_witness :
    (createFallbackClassification exTicket).department = .IT ∧
    (createFallbackClassification exTicket).confidence_score =
      min ((7 : ℚ)/10) (4/10 + ((bestEntry exTicket).2 : ℚ) * (1/10)) ∧
    (createFallbackClassification exTicket).confidence_score = 1/2 ∧
    (createFallbackClassification exTicket).assigned_to = "it_support_team" := by
  have hn : (bestEntry exTicket).2 ≠ 0 := by decide
  obtain ⟨_, _, _, _, _, h6⟩ := c5_fallback_classifier exTicket
  obtain ⟨hd, hc⟩ := h6 hn
  have hs : (bestEntry exTicket).2 = 1 := by decide
  refine ⟨?_, hc, ?_, ?_⟩
  · rw [hd]; decide
  · rw [hc, hs]
    rw [min_def]
    norm_num
  · rw [createFallback_assigned, createFallback_department, if_neg hn, ]
    have h1 : (bestEntry exTicket).1 = .IT := by decide
    rw [h1]
    rfl

/-- C9. The payload transformers map priorities via the fixed dictionaries
low→Low/1, medium→Medium/2, high→High/3, critical→Highest/4; in particular a
critical ticket gets Jira priority name "Highest" and Freshservice priority
4. -/
theorem c9_priority_maps (t : ProcessedTicket) :
    (transformTicketForJira t).priorityName = jiraPriorityName t.priority ∧
    (transformTicketForFreshservice t).priority = freshservicePriority t.priority ∧
    (t.priority = .critical → (transformTicketForJira t).priorityName = "Highest") ∧
    (t.priority = .critical → (transformTicketForFreshservice t).priority = 4) ∧
    jiraPriorityName .low = "Low" ∧ jiraPriorityName .medium = "Medium" ∧
    jiraPriorityName .high = "High" ∧ jiraPriorityName .critical = "Highest" ∧
    freshservicePriority .low = 1 ∧ freshservicePriority .medium = 2 ∧
    freshservicePriority .high = 3 ∧ freshservicePriority .critical = 4 := by
  refine ⟨rfl, rfl, ?_, ?_, rfl, rfl, rfl, rfl, rfl, rfl, rfl, rfl⟩
  · intro h
    show jiraPriorityName t.priority = "Highest"
    rw [h]
    rfl
  · intro h
    show freshservicePriority t.priority = 4
    rw [h]
    rfl

/-- Witness for C9 at a concrete critical ticket. -/
theorem c9_priority_maps_witness :
    (transformTicketForJira exProcessedTicket).priorityName = "Highest" ∧
    (transformTicketForFreshservice exProcessedTicket).priority = 4 := by
  obtain ⟨_, _, h3, h4, _⟩ := c9_priority_maps exProcessedTicket
  exact ⟨h3 rfl, h4 rfl⟩

/-! ## C7: the response parser -/

/-- `findIdx?` misses when the predicate holds nowhere. -/
theorem findIdx_none_of_all {p : Char → Bool} :
    ∀ l : List Char, (∀ x ∈ l, p x = false) → l.findIdx? p = none := by
  intro l
  induction l with
  | nil => intro _; rfl
  | cons c rest ih =>
    intro h
    have hc := h c (List.mem_cons_self _ _)
    simp only [List.findIdx?_cons, hc, cond_false]
    have := ih (fun x hx => h x (List.mem_cons_of_mem _ hx))
    simp [this]

/-- The branching shape of `_parse_classification_response` with its
scrutinees exposed. -/
theorem parseClassificationResponse_eq (text : String) :
    parseClassificationResponse text =
      (match codeExtractJson text with
       | none => none
       | some jsonContent =>
         match jsonLoads jsonContent with
         | none => none
         | some v => validateClassificationObject v) := rfl

/-- C7 counterexample: on a response holding a complete classification
object followed by a second `\x7b\x7d`, the first balanced object parses and
carries all required fields, yet `_parse_classification_response` fails —
the code slices from the first brace to the LAST brace, not the first
balanced object. -/
theorem c7_counterexample :
    parseClassificationResponse twoObjResp = none ∧
    (specParseClassificationResponse twoObjResp).isSome = true ∧
    (specExtractFirstBalanced twoObjResp = some goodResp) := by
  refine ⟨rfl, rfl, rfl⟩

/-- C7 as amended: the parser slices from the first brace through the last
brace of the stripped response; it fails when either brace is absent, when
the slice is not valid JSON, and when a required field is missing from the
parsed object. -/
theorem c7_amended_slice (text : String) :
    ((∀ x ∈ (pyStrip text).data, (x == '{') = false) →
      parseClassificationResponse text = none) ∧
    ((∀ x ∈ (pyStrip text).data, (x == '}') = false) →
      parseClassificationResponse text = none) ∧
    (∀ s, codeExtractJson text = some s → jsonLoads s = none →
      parseClassificationResponse text = none) ∧
    (∀ s fields, codeExtractJson text = some s →
      jsonLoads s = some (.jobj fields) →
      ((objGet fields "department").isSome = false ∨
        (objGet fields "team").isSome = false ∨
        (objGet fields "confidence").isSome = false ∨
        (objGet fields "reasoning").isSome = false) →
      parseClassificationResponse text = none) := by
  refine ⟨?_, ?_, ?_, ?_⟩
  · intro h
    have hext : codeExtractJson text = none := by
      simp only [codeExtractJson]
      rw [findIdx_none_of_all _ h]
    rw [parseClassificationResponse_eq, hext]
  · intro h
    have hrev : ∀ x ∈ (pyStrip text).data.reverse, (x == '}') = false := by
      intro x hx
      exact h x (List.mem_reverse.mp hx)
    have hlast : lastIdxOf (pyStrip text).data '}' = none := by
      unfold lastIdxOf
      rw [findIdx_none_of_all _ hrev]
    have hext : codeExtractJson text = none := by
      simp only [codeExtractJson, hlast]
      cases hfi : ((pyStrip text).data.findIdx? (fun x => x == '{')) <;> simp
    rw [parseClassificationResponse_eq, hext]
  · intro s h1 h2
    rw [parseClassificationResponse_eq, h1]
    simp [h2]
  · intro s fields h1 h2 h3
    rw [parseClassificationResponse_eq, h1]
    simp only [h2]
    unfold validateClassificationObject
    rcases h3 with h | h | h | h <;> simp [h]

/-- Witness for C7-amended on a brace-free response and on an object missing
the required fields. -/
theorem c7_amended_slice_witness :
    parseClassificationResponse "no json here" = none ∧
    parseClassificationResponse "\x7b\"a\": 1\x7d" = none := by
  constructor
  · exact (c7_amended_slice "no json here").1 (by decide)
  · exact (c7_amended_slice "\x7b\"a\": 1\x7d").2.2.2 "\x7b\"a\": 1\x7d"
      [("a", .jnum (mkRat 1 1))] rfl rfl (Or.inl rfl)

/-! ## Classifier pipeline lemmas -/

/-- The retry decorator never observes an exception from `classify_ticket`:
its body catches everything, so the decorated call is exactly one run of the
body on the first attempt. -/
theorem classifyTicket_eq (modelName : String) (t : IncomingTicket)
    (cache : Cache) (backends : Nat → BackendOutcome) (ms : Nat) :
    classifyTicket modelName t cache backends ms =
      .ok (classifyTicketBody modelName t cache (backends 0) ms) := rfl

theorem cacheLookup_dictSet (c : Cache) (k0 k : String)
    (v : ClassificationResult) :
    cacheLookup (dictSet c k0 v) k =
      if (k0 == k) = true then some v else cacheLookup c k := by
  simp only [cacheLookup, dictGet, dictSet, List.find?]
  by_cases h : (k0 == k) = true
  · simp [h]
  · simp [h]

theorem cacheLookup_dictSet_same (c : Cache) (k : String)
    (v : ClassificationResult) :
    cacheLookup (dictSet c k v) k = some v := by
  rw [cacheLookup_dictSet]
  simp

/-- A cache hit short-circuits the body: the cached result is returned
unchanged, the cache is untouched, and the backend is not consulted. -/
theorem classifyTicketBody_cache_hit (modelName : String) (t : IncomingTicket)
    (c : Cache) (backend : BackendOutcome) (ms : Nat) (r : ClassificationResult)
    (h : cacheLookup c (generateCacheKey t) = some r) :
    classifyTicketBody modelName t c backend ms = (r, c, false) := by
  unfold classifyTicketBody classifyPipeline
  simp only [h]

/-- Exhaustive outcome analysis of one `classify_ticket` body run: either a
cache hit (result returned unchanged, no backend call), or a cache miss in
which the backend is consulted and the call ends in the keyword fallback
(cache untouched) or in an AI-parsed result (stored into the cache under the
ticket's fingerprint, tagged with the configured model name). -/
theorem classifyTicketBody_spec (modelName : String) (t : IncomingTicket)
    (cache : Cache) (backend : BackendOutcome) (ms : Nat) :
    (∃ rc, cacheLookup cache (generateCacheKey t) = some rc ∧
      classifyTicketBody modelName t cache backend ms = (rc, cache, false)) ∨
    (cacheLookup cache (generateCacheKey t) = none ∧
      (classifyTicketBody modelName t cache backend ms).2.2 = true ∧
      (((classifyTicketBody modelName t cache backend ms).1.model_version =
          "fallback-keywords" ∧
        (classifyTicketBody modelName t cache backend ms).2.1 = cache) ∨
       ((classifyTicketBody modelName t cache backend ms).1.model_version =
          modelName ∧
        (classifyTicketBody modelName t cache backend ms).2.1 =
          dictSet cache (generateCacheKey t)
            (classifyTicketBody modelName t cache backend ms).1))) := by
  unfold classifyTicketBody classifyPipeline
  cases hl : cacheLookup cache (generateCacheKey t) with
  | some rc =>
    simp only [hl]
    exact Or.inl ⟨rc, by trivial, by trivial⟩
  | none =>
    simp only [hl]
    refine Or.inr ⟨by trivial, ?_⟩
    cases backend with
    | error e => exact ⟨by trivial, Or.inl ⟨by trivial, by trivial⟩⟩
    | ok text =>
      by_cases ht : text = ""
      · simp only [if_pos ht]
        exact ⟨by trivial, Or.inl ⟨by trivial, by trivial⟩⟩
      · simp only [if_neg ht]
        cases hp : parseClassificationResponse text with
        | none =>
          simp only [hp]
          exact ⟨by trivial, Or.inl ⟨by trivial, by trivial⟩⟩
        | some parsed =>
          simp only [hp]
          exact ⟨by trivial, Or.inr ⟨by trivial, by trivial⟩⟩

/-- C1. `classify_ticket` never raises to its caller: the decorated call
always yields an `.ok` value, and whenever the internal pipeline raises (the
backend call fails, the response is empty, or any other step throws), the
returned value is the keyword fallback with measured processing time and the
cache left unchanged. -/
theorem c1_classify_never_raises (modelName : String) (t : IncomingTicket)
    (cache : Cache) (backends : Nat → BackendOutcome) (ms : Nat) :
    (∃ out, classifyTicket modelName t cache backends ms = Except.ok out) ∧
    (∀ e, classifyPipeline modelName t cache (backends 0) ms = .error e →
      classifyTicket modelName t cache backends ms =
        .ok ({ createFallbackClassification t with processing_time_ms := ms },
          cache, true)) := by
  constructor
  · exact ⟨_, classifyTicket_eq modelName t cache backends ms⟩
  · intro e he
    rw [classifyTicket_eq]
    unfold classifyTicketBody
    rw [he]

/-- Witness for C1: a failing backend at a concrete ticket produces the
keyword fallback instead of an exception. -/
theorem c1_classify_never_raises_witness :
    classifyTicket "gemini-1.5-pro" exTicket []
        (fun _ => .error "backend down") 42 =
      .ok ({ createFallbackClassification exTicket with
              processing_time_ms := 42 }, [], true) :=
  (c1_classify_never_raises "gemini-1.5-pro" exTicket []
    (fun _ => .error "backend down") 42).2 "backend down" rfl

/-- C4 (the retry that never fires). The `retry_with_backoff(max_attempts=3)`
decorator on `classify_ticket` retries only on a raised exception, but the
body's `except Exception` handler converts every failure into a returned
fallback, so the decorated call is always exactly the first attempt: a single
transient backend failure (attempt 0) yields the keyword fallback even though
attempt 1 would have produced the AI classification. -/
theorem c4_retry_never_fires :
    (∀ (modelName : String) (t : IncomingTicket) (cache : Cache)
        (backends : Nat → BackendOutcome) (ms : Nat),
      classifyTicket modelName t cache backends ms =
        .ok (classifyTicketBody modelName t cache (backends 0) ms)) ∧
    ((classifyTicketBody "gemini-1.5-pro" exTicket []
        (.error "ServiceUnavailable: 503") 42).1.model_version =
      "fallback-keywords") ∧
    ((classifyTicketBody "gemini-1.5-pro" exTicket [] (.ok goodResp)
        42).1.model_version = "gemini-1.5-pro") :=
  ⟨fun modelName t cache backends ms =>
    classifyTicket_eq modelName t cache backends ms, rfl, rfl⟩

/-! ## C6 and C10: the classification cache -/

/-- C6 counterexample: with identical title and description on both calls,
a first call whose backend fails returns the keyword fallback and stores
nothing, and the second call consults the backend again (third component
`true`) and returns a different, non-identical result — so "classify twice
returns a bit-identical result without a second backend invocation" fails as
an unconditional statement. -/
theorem c6_counterexample :
    (classifyTicket "gemini-1.5-pro" exTicket [] (fun _ => .error "boom") 42 =
      .ok (exFallbackResult, [], true)) ∧
    (classifyTicket "gemini-1.5-pro" exTicket [] (fun _ => .ok goodResp) 99 =
      .ok (exAiResult, exAiCache, true)) ∧
    exFallbackResult ≠ exAiResult := by
  refine ⟨rfl, rfl, ?_⟩
  intro h
  exact absurd (congrArg ClassificationResult.model_version h) (by decide)

/-- C6 as amended: when the first call returned a result carrying the
configured model name (the AI-parse path, which stores into the cache) — or
served an existing cache entry — a subsequent call with identical title and
description returns the bit-identical stored result, including the first
call's processing time, without consulting the backend. -/
theorem c6_cached_after_ai_success (modelName : String) (t : IncomingTicket)
    (cache : Cache) (backends backends2 : Nat → BackendOutcome) (ms ms2 : Nat)
    (r : ClassificationResult) (c : Cache) (u : Bool)
    (h1 : classifyTicket modelName t cache backends ms = .ok (r, c, u))
    (h2 : r.model_version = modelName)
    (h3 : modelName ≠ "fallback-keywords") :
    classifyTicket modelName t c backends2 ms2 = .ok (r, c, false) := by
  rw [classifyTicket_eq] at h1
  injection h1 with hb
  rcases classifyTicketBody_spec modelName t cache (backends 0) ms with
    ⟨rc, hlook, heq⟩ | ⟨hnone, hcall, hrest⟩
  · rw [heq] at hb
    obtain ⟨hr, hc, hu⟩ : rc = r ∧ cache = c ∧ false = u := by
      simpa [Prod.ext_iff] using hb
    rw [classifyTicket_eq]
    rw [classifyTicketBody_cache_hit modelName t c (backends2 0) ms2 r
      (by rw [← hc, ← hr]; exact hlook)]
  · rcases hrest with ⟨hmv, hcc⟩ | ⟨hmv, hstore⟩
    · rw [hb] at hmv
      simp only at hmv
      rw [h2] at hmv
      exact absurd hmv h3
    · rw [hb] at hmv hstore
      simp only at hmv hstore
      rw [classifyTicket_eq]
      rw [classifyTicketBody_cache_hit modelName t c (backends2 0) ms2 r
        (by rw [hstore]; exact cacheLookup_dictSet_same cache (generateCacheKey t) r)]

/-- Witness for C6-amended: after a successful AI classification of
`exTicket`, a second call with a failing backend still returns the identical
cached result without a backend call. -/
theorem c6_cached_after_ai_success_witness :
    classifyTicket "gemini-1.5-pro" exTicket exAiCache
        (fun _ => .error "backend down now") 7 =
      .ok (exAiResult, exAiCache, false) :=
  c6_cached_after_ai_success "gemini-1.5-pro" exTicket []
    (fun _ => .ok goodResp) (fun _ => .error "backend down now") 99 7
    exAiResult exAiCache true rfl rfl (by decide)

/-- C10. Every entry the classifier ever inserts into the cache carries the
configured model name (never "fallback-keywords"); consequently, when a call
answers with the keyword fallback the cache is unchanged, and a later call
with identical title and description misses the cache and consults the
backend again. -/
theorem c10_fallback_never_cached (modelName : String) (t : IncomingTicket)
    (cache : Cache) (backends backends2 : Nat → BackendOutcome) (ms ms2 : Nat)
    (r r2 : ClassificationResult) (c c2 : Cache) (u u2 : Bool)
    (hM : modelName ≠ "fallback-keywords") :
    (classifyTicket modelName t cache backends ms = .ok (r, c, u) →
      ∀ k v, cacheLookup c k = some v →
        cacheLookup cache k = some v ∨ v.model_version = modelName) ∧
    (classifyTicket modelName t cache backends ms = .ok (r, c, u) →
      r.model_version = "fallback-keywords" →
      (∀ k v, cacheLookup cache k = some v → v.model_version = modelName) →
      c = cache ∧
      (classifyTicket modelName t c backends2 ms2 = .ok (r2, c2, u2) →
        u2 = true)) := by
  constructor
  · intro h1 k v hkv
    rw [classifyTicket_eq] at h1
    injection h1 with hb
    rcases classifyTicketBody_spec modelName t cache (backends 0) ms with
      ⟨rc, hlook, heq⟩ | ⟨hnone, hcall, hrest⟩
    · rw [heq] at hb
      obtain ⟨hr, hc, hu⟩ : rc = r ∧ cache = c ∧ false = u := by
        simpa [Prod.ext_iff] using hb
      rw [← hc] at hkv
      exact Or.inl hkv
    · rcases hrest with ⟨hmv, hcc⟩ | ⟨hmv, hstore⟩
      · rw [hb] at hcc
        simp only at hcc
        rw [hcc] at hkv
        exact Or.inl hkv
      · rw [hb] at hmv hstore
        simp only at hmv hstore
        rw [hstore, cacheLookup_dictSet] at hkv
        by_cases hk : (generateCacheKey t == k) = true
        · rw [if_pos hk] at hkv
          right
          rw [← Option.some_inj.mp hkv]
          exact hmv
        · rw [if_neg hk] at hkv
          exact Or.inl hkv
  · intro h1 hfb hinv
    rw [classifyTicket_eq] at h1
    injection h1 with hb
    have hcc : c = cache ∧ cacheLookup cache (generateCacheKey t) = none := by
      rcases classifyTicketBody_spec modelName t cache (backends 0) ms with
        ⟨rc, hlook, heq⟩ | ⟨hnone, hcall, hrest⟩
      · rw [heq] at hb
        obtain ⟨hr, hc, hu⟩ : rc = r ∧ cache = c ∧ false = u := by
          simpa [Prod.ext_iff] using hb
        have := hinv (generateCacheKey t) rc hlook
        rw [hr, hfb] at this
        exact absurd this.symm hM
      · rcases hrest with ⟨hmv, hc⟩ | ⟨hmv, hstore⟩
        · rw [hb] at hc
          simp only at hc
          exact ⟨hc, hnone⟩
        · rw [hb] at hmv
          simp only at hmv
          have : r.model_version = modelName := hmv
          rw [hfb] at this
          exact absurd this.symm hM
    obtain ⟨hceq, hmiss⟩ := hcc
    refine ⟨hceq, ?_⟩
    intro h2
    rw [classifyTicket_eq] at h2
    injection h2 with hb2
    rcases classifyTicketBody_spec modelName t c (backends2 0) ms2 with
      ⟨rc, hlook, heq⟩ | ⟨hnone2, hcall2, _⟩
    · rw [hceq] at hlook
      rw [hmiss] at hlook
      exact absurd hlook (by simp)
    · rw [hb2] at hcall2
      exact hcall2

/-- Witness for C10: the insert invariant at the successful AI call on the
empty cache, and the fallback call leaving the empty cache untouched with
the follow-up call consulting the backend. -/
theorem c10_fallback_never_cached_witness :
    (cacheLookup ([] : Cache) (generateCacheKey exTicket) = some exAiResult ∨
      exAiResult.model_version = "gemini-1.5-pro") ∧
    (([] : Cache) = [] ∧
      (classifyTicket "gemini-1.5-pro" exTicket []
          (fun _ => .ok goodResp) 99 = .ok (exAiResult, exAiCache, true) →
        true = true)) := by
  constructor
  · exact (c10_fallback_never_cached "gemini-1.5-pro" exTicket []
      (fun _ => .ok goodResp) (fun _ => .ok goodResp) 99 99
      exAiResult exAiResult exAiCache exAiCache true true (by decide)).1
      rfl (generateCacheKey exTicket) exAiResult
      (cacheLookup_dictSet_same [] (generateCacheKey exTicket) exAiResult)
  · exact (c10_fallback_never_cached "gemini-1.5-pro" exTicket []
      (fun _ => .error "boom") (fun _ => .ok goodResp) 42 99
      exFallbackResult exAiResult [] exAiCache true true (by decide)).2
      rfl rfl (fun k v h => by simp [cacheLookup, dictGet] at h)

/-! ## Router helper lemmas -/

theorem dictGet_dictSet_same {α : Type} (l : List (String × α)) (k : String)
    (v : α) : dictGet (dictSet l k v) k = some v := by
  simp only [dictGet, dictSet, List.find?]
  simp

theorem dictGetD_dictSet_same {α : Type} (l : List (String × α)) (k : String)
    (v dflt : α) : dictGetD (dictSet l k v) k dflt = v := by
  simp [dictGetD, dictGet_dictSet_same]

/-- The retry decorator never observes an exception from `route_ticket`
either: the body catches `HTTPStatusError`, `RequestError` and `Exception`
and converts them into failure results, so the decorated call is exactly one
run of the body on the first attempt. -/
theorem routeTicket_eq (t : ProcessedTicket) (tm : TeamMapping)
    (st : BreakerState) (outcomes : Nat → HttpOutcome) (now procMs : Nat) :
    routeTicket t tm st outcomes now procMs =
      .ok (routeTicketBody t tm st (outcomes 0) now procMs) := rfl

/-- The open-breaker short circuit of `route_ticket`. -/
theorem routeTicketBody_open (t : ProcessedTicket) (tm : TeamMapping)
    (st : BreakerState) (outcome : HttpOutcome) (now procMs : Nat)
    (h : (isCircuitBreakerOpen st tm.api_endpoint now).1 = true) :
    routeTicketBody t tm st outcome now procMs =
      ({ success := false, system_name := "circuit_breaker",
         external_ticket_id := none, response_data := .jobj [],
         error_message := some ("Circuit breaker open for " ++ tm.api_endpoint),
         http_status_code := none, processing_time_ms := procMs },
       (isCircuitBreakerOpen st tm.api_endpoint now).2, false) := by
  simp [routeTicketBody, h]

/-- When the breaker check answers closed, the HTTP call is issued
(`.2.2 = true`) and the result's system name is the resolver's answer, in
every branch of the body. -/
theorem routeTicketBody_closed (t : ProcessedTicket) (tm : TeamMapping)
    (st : BreakerState) (outcome : HttpOutcome) (now procMs : Nat)
    (h : (isCircuitBreakerOpen st tm.api_endpoint now).1 = false) :
    (routeTicketBody t tm st outcome now procMs).2.2 = true ∧
    (routeTicketBody t tm st outcome now procMs).1.system_name =
      getSystemFromEndpoint tm.api_endpoint := by
  simp only [routeTicketBody, h]
  cases outcome with
  | transportFailure msg => exact ⟨by trivial, by trivial⟩
  | response status bodyText =>
    by_cases hs : 200 ≤ status ∧ status < 300
    · simp only [if_pos hs]
      cases hx : extractTicketId bodyText (getSystemFromEndpoint tm.api_endpoint) now with
      | error e => exact ⟨by trivial, by trivial⟩
      | ok extId =>
        by_cases hb : bodyText = ""
        · simp only [if_pos hb]
          exact ⟨by trivial, by trivial⟩
        · simp only [if_neg hb]
          cases hj : jsonLoads bodyText with
          | some v => exact ⟨by trivial, by trivial⟩
          | none => exact ⟨by trivial, by trivial⟩
    · simp only [if_neg hs]
      exact ⟨by trivial, by trivial⟩

/-- The resolver answers one of the five fixed system names. -/
theorem getSystem_mem (e : String) :
    getSystemFromEndpoint e = "jira" ∨ getSystemFromEndpoint e = "freshservice" ∨
    getSystemFromEndpoint e = "slack" ∨ getSystemFromEndpoint e = "webhook_test" ∨
    getSystemFromEndpoint e = "unknown" := by
  simp only [getSystemFromEndpoint]
  split_ifs <;> simp

/-- The resolver never answers the breaker sentinel. -/
theorem getSystem_ne_cb (e : String) :
    getSystemFromEndpoint e ≠ "circuit_breaker" := by
  rcases getSystem_mem e with h | h | h | h | h <;> rw [h] <;> decide

/-- C2. The per-endpoint circuit breaker: fresh endpoints are closed; a
recorded failure increments the consecutive count and stamps the failure
time, opening the breaker exactly when the count reaches 5; while open,
within 300 seconds of the last failure a routing attempt is short-circuited
(no HTTP call) as a failure named "circuit_breaker" with state unchanged;
once more than 300 seconds have elapsed the check resets the breaker to
closed with a zero count and the attempt proceeds; and a recorded success
zeroes the count and closes the breaker regardless of the prior count. -/
theorem c2_circuit_breaker (st : BreakerState) (e : String) (now : Nat)
    (t : ProcessedTicket) (tm : TeamMapping) (outcome : HttpOutcome)
    (procMs : Nat) :
    (isCircuitBreakerOpen initialBreakerState e now =
      (false, initialBreakerState)) ∧
    (dictGetD (recordFailure st e now).failureCounts e 0 =
      dictGetD st.failureCounts e 0 + 1) ∧
    (dictGet (recordFailure st e now).lastFailureTime e = some now) ∧
    (dictGet st.cbState e ≠ some true →
      (dictGet (recordFailure st e now).cbState e = some true ↔
        5 ≤ dictGetD st.failureCounts e 0 + 1)) ∧
    (tm.api_endpoint = e → dictGet st.cbState e = some true →
      5 ≤ dictGetD st.failureCounts e 0 →
      now - dictGetD st.lastFailureTime e 0 ≤ 300 →
      routeTicketBody t tm st outcome now procMs =
        ({ success := false, system_name := "circuit_breaker",
           external_ticket_id := none, response_data := .jobj [],
           error_message := some ("Circuit breaker open for " ++ e),
           http_status_code := none, processing_time_ms := procMs },
         st, false)) ∧
    (∀ b, dictGet st.cbState e = some b →
      5 ≤ dictGetD st.failureCounts e 0 →
      300 < now - dictGetD st.lastFailureTime e 0 →
      isCircuitBreakerOpen st e now =
        (false, { st with cbState := dictSet st.cbState e false,
                          failureCounts := dictSet st.failureCounts e 0 }) ∧
      (tm.api_endpoint = e →
        (routeTicketBody t tm st outcome now procMs).2.2 = true)) ∧
    (dictGetD (recordSuccess st e).failureCounts e 0 = 0 ∧
      dictGet (recordSuccess st e).cbState e = some false) := by
  have hfc : (recordFailure st e now).failureCounts =
      dictSet st.failureCounts e (dictGetD st.failureCounts e 0 + 1) := by
    simp only [recordFailure]
    split <;> rfl
  have hlt : (recordFailure st e now).lastFailureTime =
      dictSet st.lastFailureTime e now := by
    simp only [recordFailure]
    split <;> rfl
  have hcb : (recordFailure st e now).cbState =
      if 5 ≤ dictGetD st.failureCounts e 0 + 1 then dictSet st.cbState e true
      else st.cbState := by
    simp only [recordFailure, ge_iff_le]
    split <;> rfl
  refine ⟨rfl, ?_, ?_, ?_, ?_, ?_, ?_, ?_⟩
  · rw [hfc, dictGetD_dictSet_same]
  · rw [hlt, dictGet_dictSet_same]
  · intro hne
    rw [hcb]
    by_cases h5 : 5 ≤ dictGetD st.failureCounts e 0 + 1
    · rw [if_pos h5, dictGet_dictSet_same]
      exact ⟨fun _ => h5, fun _ => rfl⟩
    · rw [if_neg h5]
      exact ⟨fun hh => absurd hh hne, fun hh => absurd hh h5⟩
  · intro he hflag h5 h300
    subst he
    have hopen : isCircuitBreakerOpen st tm.api_endpoint now = (true, st) := by
      simp only [isCircuitBreakerOpen, hflag]
      rw [if_neg (by omega), if_neg (by omega)]
    rw [routeTicketBody_open t tm st outcome now procMs (by rw [hopen])]
    rw [hopen]
  · intro b hflag h5 h300
    have hreset : isCircuitBreakerOpen st e now =
        (false, { st with cbState := dictSet st.cbState e false,
                          failureCounts := dictSet st.failureCounts e 0 }) := by
      simp only [isCircuitBreakerOpen, hflag]
      rw [if_neg (by omega), if_pos (by omega)]
    refine ⟨hreset, ?_⟩
    intro he
    subst he
    exact (routeTicketBody_closed t tm st outcome now procMs (by rw [hreset])).1
  · unfold recordSuccess
    rw [dictGetD_dictSet_same]
  · unfold recordSuccess
    rw [dictGet_dictSet_same]

/-- Witness for C2 at a concrete endpoint: five failures open the breaker, a
routing attempt 100 seconds later short-circuits with system
"circuit_breaker" and no HTTP call, an attempt 301 seconds later resets the
breaker and proceeds, and a recorded success zeroes the count. -/
theorem c2_circuit_breaker_witness :
    (isCircuitBreakerOpen initialBreakerState epEx 0 =
      (false, initialBreakerState)) ∧
    (dictGet (recordFailure st4ex epEx 100).cbState epEx = some true ↔
      5 ≤ dictGetD st4ex.failureCounts epEx 0 + 1) ∧
    (routeTicketBody exProcessedTicket exMapping st5ex (.response 200 "")
        200 7 =
      ({ success := false, system_name := "circuit_breaker",
         external_ticket_id := none, response_data := .jobj [],
         error_message := some ("Circuit breaker open for " ++ epEx),
         http_status_code := none, processing_time_ms := 7 }, st5ex, false)) ∧
    (isCircuitBreakerOpen st5ex epEx 401 =
      (false, { st5ex with cbState := dictSet st5ex.cbState epEx false,
                           failureCounts := dictSet st5ex.failureCounts epEx 0 })) ∧
    ((routeTicketBody exProcessedTicket exMapping st5ex (.response 200 "")
        401 7).2.2 = true) ∧
    (dictGetD (recordSuccess st4ex epEx).failureCounts epEx 0 = 0 ∧
      dictGet (recordSuccess st4ex epEx).cbState epEx = some false) := by
  obtain ⟨w1, _, _, w4, w5, w6, w7⟩ := c2_circuit_breaker st4ex epEx 0
    exProcessedTicket exMapping (.response 200 "") 7
  obtain ⟨_, _, _, _, x5, x6, _⟩ := c2_circuit_breaker st5ex epEx 200
    exProcessedTicket exMapping (.response 200 "") 7
  obtain ⟨_, _, _, _, _, y6, _⟩ := c2_circuit_breaker st5ex epEx 401
    exProcessedTicket exMapping (.response 200 "") 7
  refine ⟨w1, w4 (by decide), x5 rfl (by decide) (by decide) (by decide),
    ?_, ?_, w7⟩
  · exact (y6 true (by decide) (by decide) (by decide)).1
  · exact (y6 true (by decide) (by decide) (by decide)).2 rfl

/-- C3 (the routing retry that never fires). The
`retry_with_backoff(max_attempts=3, exceptions=(RequestError, HTTPStatusError))`
decorator on `route_ticket` retries only on a raised matching exception, but
the body's `except` clauses catch exactly those exceptions and convert them
into failure `RoutingResult`s, so the decorated call is always exactly the
first attempt: a single transport error or non-2xx status immediately yields
a failure result carrying that error message (and HTTP status), with no
second attempt. -/
theorem c3_route_retry_never_fires :
    (∀ (t : ProcessedTicket) (tm : TeamMapping) (st : BreakerState)
        (outcomes : Nat → HttpOutcome) (now procMs : Nat),
      routeTicket t tm st outcomes now procMs =
        .ok (routeTicketBody t tm st (outcomes 0) now procMs)) ∧
    ((routeTicketBody exProcessedTicket exMapping initialBreakerState
        (.transportFailure "Connection refused") 200 7).1.success = false) ∧
    ((routeTicketBody exProcessedTicket exMapping initialBreakerState
        (.transportFailure "Connection refused") 200 7).1.error_message =
      some "Request error: Connection refused") ∧
    ((routeTicketBody exProcessedTicket exMapping initialBreakerState
        (.response 503 "overloaded") 200 7).1.http_status_code = some 503) ∧
    ((routeTicketBody exProcessedTicket exMapping initialBreakerState
        (.response 503 "overloaded") 200 7).1.error_message =
      some "HTTP error 503: overloaded") ∧
    ((routeTicketBody exProcessedTicket exMapping initialBreakerState
        (.response 200 "") 200 7).1.success = true) :=
  ⟨fun t tm st outcomes now procMs => routeTicket_eq t tm st outcomes now procMs,
   rfl, rfl, rfl, rfl, rfl⟩

/-- C8. A successful routing result always carries the resolver's system
name for the mapping's endpoint — one of jira, freshservice, slack,
webhook_test, unknown — and never the sentinel "circuit_breaker"; the
"circuit_breaker" name occurs only on the open-breaker short circuit, a
failure result produced without an HTTP call. -/
theorem c8_success_system_name (t : ProcessedTicket) (tm : TeamMapping)
    (st : BreakerState) (outcome : HttpOutcome) (now procMs : Nat) :
    ((routeTicketBody t tm st outcome now procMs).1.success = true →
      (routeTicketBody t tm st outcome now procMs).1.system_name =
        getSystemFromEndpoint tm.api_endpoint ∧
      (routeTicketBody t tm st outcome now procMs).1.system_name ≠
        "circuit_breaker" ∧
      ((routeTicketBody t tm st outcome now procMs).1.system_name = "jira" ∨
       (routeTicketBody t tm st outcome now procMs).1.system_name = "freshservice" ∨
       (routeTicketBody t tm st outcome now procMs).1.system_name = "slack" ∨
       (routeTicketBody t tm st outcome now procMs).1.system_name = "webhook_test" ∨
       (routeTicketBody t tm st outcome now procMs).1.system_name = "unknown")) ∧
    ((routeTicketBody t tm st outcome now procMs).1.system_name =
        "circuit_breaker" →
      (routeTicketBody t tm st outcome now procMs).1.success = false ∧
      (routeTicketBody t tm st outcome now procMs).2.2 = false) := by
  cases hc : (isCircuitBreakerOpen st tm.api_endpoint now).1 with
  | true =>
    rw [routeTicketBody_open t tm st outcome now procMs hc]
    constructor
    · intro h
      exact absurd h (by simp)
    · intro _
      exact ⟨rfl, rfl⟩
  | false =>
    obtain ⟨hcall, hsys⟩ := routeTicketBody_closed t tm st outcome now procMs hc
    constructor
    · intro _
      refine ⟨hsys, ?_, ?_⟩
      · rw [hsys]
        exact getSystem_ne_cb tm.api_endpoint
      · rw [hsys]
        exact getSystem_mem tm.api_endpoint
    · intro h
      rw [hsys] at h
      exact absurd h (getSystem_ne_cb tm.api_endpoint)

/-- Witness for C8: a successful delivery to a Jira endpoint is named
"jira", and the short-circuited attempt against an open breaker is the only
carrier of "circuit_breaker" — a failure with no HTTP call. -/
theorem c8_success_system_name_witness :
    ((routeTicketBody exProcessedTicket exMappingJira initialBreakerState
        (.response 200 "") 200 7).1.system_name =
      getSystemFromEndpoint exMappingJira.api_endpoint ∧
      (routeTicketBody exProcessedTicket exMappingJira initialBreakerState
        (.response 200 "") 200 7).1.system_name ≠ "circuit_breaker" ∧
      ((routeTicketBody exProcessedTicket exMappingJira initialBreakerState
          (.response 200 "") 200 7).1.system_name = "jira" ∨
       (routeTicketBody exProcessedTicket exMappingJira initialBreakerState
          (.response 200 "") 200 7).1.system_name = "freshservice" ∨
       (routeTicketBody exProcessedTicket exMappingJira initialBreakerState
          (.response 200 "") 200 7).1.system_name = "slack" ∨
       (routeTicketBody exProcessedTicket exMappingJira initialBreakerState
          (.response 200 "") 200 7).1.system_name = "webhook_test" ∨
       (routeTicketBody exProcessedTicket exMappingJira initialBreakerState
          (.response 200 "") 200 7).1.system_name = "unknown")) ∧
    ((routeTicketBody exProcessedTicket exMapping st5ex (.response 200 "")
        200 7).1.success = false ∧
      (routeTicketBody exProcessedTicket exMapping st5ex (.response 200 "")
        200 7).2.2 = false) := by
  constructor
  · exact (c8_success_system_name exProcessedTicket exMappingJira
      initialBreakerState (.response 200 "") 200 7).1 rfl
  · exact (c8_success_system_name exProcessedTicket exMapping st5ex
      (.response 200 "") 200 7).2 rfl

end Triage
